import Mathlib

/-!
Verification of the core of the hacker-news-extension repository against its
specification, via a shallow embedding of the relevant JavaScript code:

* the client-side cache helpers of `HackerNewsCache` (duplicated verbatim in
  `background.js`, `popup.js` and `newtab.js`);
* the multi-source retrieval pipeline: `handleFetchStories` in `background.js`
  and `NewTabHackerNewsReader.loadStories` in `newtab.js`;
* the FORCE_REFRESH message handler of `background.js`;
* the retention cleanup service `backend/services/cleanupService.js`.

Time is modeled in integer milliseconds.  A JavaScript number that may be
`undefined`/absent is modeled as `Option Int`; the JS falsy test `!timestamp`
holds exactly for the absent value and for `0`.  Every network call is modeled
by an oracle value: `none` models a thrown error / rejected promise, `some l`
models a call that resolved with the item list `l`.
-/

/-- Item mirrors the story objects of the Hacker News API as used by the
extension (JS fields `id`, `title`, `by`, `time`, `score`, `url`, `type`; the
JS field `by` is called `author` here because `by` is reserved in Lean). -/
structure Item where
  id : Int
  title : String
  author : String
  time : Int
  score : Int
  url : String
  type : String
deriving DecidableEq

/-- CacheEntry mirrors the object written by `saveStoriesToCache`:
`stories`, `timestamp` (epoch milliseconds) and `version`. -/
structure CacheEntry where
  stories : List Item
  timestamp : Option Int
  version : String
deriving DecidableEq

/-- CACHE_DURATION of `HackerNewsCache`: 30 minutes in milliseconds. -/
def CACHE_DURATION : Int := 30 * 60 * 1000

/-- CACHE_VERSION of `HackerNewsCache`. -/
def CACHE_VERSION : String := "1.0"

/-- isCacheFresh of `HackerNewsCache` (background.js lines 13-17, identical in
popup.js and newtab.js): `if (!timestamp) return false;` then
`(now - timestamp) < CACHE_DURATION`. -/
def isCacheFresh (timestamp : Option Int) (now : Int) : Bool :=
  match timestamp with
  | none => false
  | some t => if t = 0 then false else decide (now - t < CACHE_DURATION)

/-- isCacheTooOld of `HackerNewsCache` (popup.js lines 99-104, identical in
newtab.js): a falsy timestamp counts as too old, otherwise an age strictly
beyond two hours does. -/
def isCacheTooOld (timestamp : Option Int) (now : Int) : Bool :=
  match timestamp with
  | none => true
  | some t => if t = 0 then true else decide (now - t > 2 * 60 * 60 * 1000)

/-- autoCleanup of `HackerNewsCache` (popup.js lines 107-120): clears the
cached entry when one exists and is too old; returns the new cache state and
whether it cleared. -/
def autoCleanup (cache : Option CacheEntry) (now : Int) : Option CacheEntry × Bool :=
  match cache with
  | some c => if isCacheTooOld c.timestamp now then (none, true) else (some c, false)
  | none => (none, false)

/-- BgResponse mirrors the objects passed to `sendResponse` by
`handleFetchStories` in background.js.  A field absent from a given JS
response object is `false` / `[]` here; `error` records whether an error
message field was present. -/
structure BgResponse where
  success : Bool
  stories : List Item
  fromCache : Bool
  stale : Bool
  error : Bool
deriving DecidableEq

/-- Catch block of `handleFetchStories` (background.js lines 339-358): after
the API fetch failed, answer with the existing cached stories marked stale
when there is at least one, otherwise with a failure response.  The cache is
left untouched. -/
def handleFetchStoriesCatch (cache : Option CacheEntry) : BgResponse × Option CacheEntry :=
  match cache with
  | some c =>
    if c.stories.length > 0 then (⟨true, c.stories, true, true, false⟩, some c)
    else (⟨false, [], false, false, true⟩, some c)
  | none => (⟨false, [], false, false, true⟩, none)

/-- Network branch of `handleFetchStories` (background.js lines 322-337):
`fetchStoriesFromAPI` (outcome oracle `api`), then cache and answer a
non-empty result; an empty result or a throw reaches the catch block. -/
def handleFetchStoriesFetch (api : Option (List Item)) (cache : Option CacheEntry)
    (now : Int) : BgResponse × Option CacheEntry :=
  match api with
  | some l =>
    if l.length > 0 then (⟨true, l, false, false, false⟩, some ⟨l, some now, CACHE_VERSION⟩)
    else handleFetchStoriesCatch cache
  | none => handleFetchStoriesCatch cache

/-- handleFetchStories of background.js (lines 308-359): answer a fresh cache
immediately, otherwise fetch from the API, otherwise degrade via the catch
block.  Returns the response and the cache state after the call. -/
def handleFetchStories (api : Option (List Item)) (cache : Option CacheEntry)
    (now : Int) : BgResponse × Option CacheEntry :=
  match cache with
  | some c =>
    if isCacheFresh c.timestamp now then (⟨true, c.stories, true, false, false⟩, some c)
    else handleFetchStoriesFetch api cache now
  | none => handleFetchStoriesFetch api cache now

/-- SourceEnv is the network oracle of one `loadStories` call: `bgAttempt n`
is the outcome of the n-th `fetchStoriesViaBackground` attempt (newtab.js
lines 546-569), `proxy` the outcome of `fetchStoriesWithProxy` (lines
571-639), `altProxy` of `fetchStoriesWithAlternativeProxy` (lines 641-700).
The proxy methods skip failing per-item fetches, so they can resolve with an
empty list. -/
structure SourceEnv where
  bgAttempt : Nat → Option (List Item)
  proxy : Option (List Item)
  altProxy : Option (List Item)

/-- Retry loop of `fetchStoriesWithRetry` (newtab.js lines 513-543): an
attempt that resolves with a non-empty list is returned; a throw or an empty
result is retried, up to `fuel` attempts in total. -/
def retryLoop (bg : Nat → Option (List Item)) : Nat → Nat → Option (List Item)
  | _, 0 => none
  | attempt, fuel + 1 =>
    match bg attempt with
    | some l => if l.length > 0 then some l else retryLoop bg (attempt + 1) fuel
    | none => retryLoop bg (attempt + 1) fuel

/-- fetchStoriesWithRetry with its default `maxRetries = 3`. -/
def fetchStoriesWithRetry (env : SourceEnv) : Option (List Item) :=
  retryLoop env.bgAttempt 1 3

/-- Source chain of `loadStories` (newtab.js lines 386-406): method 2 runs
only when method 1 throws, method 3 only when method 2 throws; a method that
resolves -- even with an empty list -- ends the chain. -/
def sourceChain (env : SourceEnv) : Option (List Item) :=
  match fetchStoriesWithRetry env with
  | some l => some l
  | none =>
    match env.proxy with
    | some l => some l
    | none => env.altProxy

/-- Origin of the stories displayed by one `loadStories` call: freshly served
(fresh cache hit or successful fetch), stale cache fallback, or the fixed
sample-story fallback. -/
inductive Origin where
  | fresh
  | stale
  | fallback
deriving DecidableEq

/-- LoadOutcome records what one `loadStories` call displays: the stories,
their origin, whether `showStaleDataWarning` ran and whether
`showOfflineMessage` ran. -/
structure LoadOutcome where
  stories : List Item
  origin : Origin
  staleWarning : Bool
  offlineMsg : Bool
deriving DecidableEq

/-- showSampleStories payload (newtab.js lines 437-469): three fixed stories
whose `time` field is `Date.now() / 1000`. -/
def sampleStories (now : Int) : List Item :=
  [⟨1, "Welcome to VU tech", "vutech", now / 1000, 100, "#", "story"⟩,
   ⟨2, "Extension is working! Check your internet connection for live updates.",
      "system", now / 1000, 50, "#", "story"⟩,
   ⟨3, "VU tech theme successfully applied with blue color scheme",
      "designer", now / 1000, 75, "#", "story"⟩]

/-- Catch block of `loadStories` (newtab.js lines 417-433): display the stale
cache when it holds at least one story (with the stale-data warning),
otherwise `showSampleStories` with the offline message.  The cache is left
untouched. -/
def loadStoriesCatch (cache : Option CacheEntry) (now : Int) :
    LoadOutcome × Option CacheEntry :=
  match cache with
  | some c =>
    if c.stories.length > 0 then (⟨c.stories.take 20, Origin.stale, true, false⟩, some c)
    else (⟨sampleStories now, Origin.fallback, false, true⟩, some c)
  | none => (⟨sampleStories now, Origin.fallback, false, true⟩, none)

/-- Fetch branch of `loadStories` (newtab.js lines 386-415): run the source
chain; a non-empty result is truncated to 20 stories, written to the cache via
`saveStoriesToCache` and displayed; a throw of the whole chain or an empty
result reaches the catch block. -/
def loadStoriesFetch (env : SourceEnv) (cache : Option CacheEntry) (now : Int) :
    LoadOutcome × Option CacheEntry :=
  match sourceChain env with
  | some l =>
    if l.length > 0 then
      (⟨l.take 20, Origin.fresh, false, false⟩, some ⟨l.take 20, some now, CACHE_VERSION⟩)
    else loadStoriesCatch cache now
  | none => loadStoriesCatch cache now

/-- loadStories of newtab.js (lines 363-434), the retrieve operation of the
FetchPipeline: cache-first, then the source chain, then the stale cache, then
the sample stories.  It returns the displayed outcome together with the cache
state after the call; it is a total function (the JS code catches every
error, so no call ever rejects). -/
def loadStories (env : SourceEnv) (cache : Option CacheEntry) (now : Int) :
    LoadOutcome × Option CacheEntry :=
  match cache with
  | some c =>
    if isCacheFresh c.timestamp now then
      (⟨c.stories.take 20, Origin.fresh, false, false⟩, some c)
    else loadStoriesFetch env cache now
  | none => loadStoriesFetch env cache now

/-- BgScriptState instruments the background service worker of background.js:
`startedCycles` counts the invocations of `refreshStoriesInBackground`, i.e.
the network retrieval cycles started.  The script keeps no in-flight flag, so
this counter is the whole state relevant to the single-flight question. -/
structure BgScriptState where
  startedCycles : Nat
deriving DecidableEq

/-- FORCE_REFRESH branch of the onMessage listener (background.js lines
296-299): it calls `refreshStoriesInBackground()` unconditionally, consulting
no guard, and answers success immediately. -/
def onForceRefresh (s : BgScriptState) : BgScriptState × Bool :=
  (⟨s.startedCycles + 1⟩, true)

/-- Sequential handling of `n` FORCE_REFRESH messages by the single-threaded
event loop; each handler invocation starts one more asynchronous refresh
cycle, so the cycles overlap in time. -/
def processForceRefreshes : Nat → BgScriptState → BgScriptState
  | 0, s => s
  | n + 1, s => processForceRefreshes n (onForceRefresh s).1

/-- Article category as stored in the `type` field of the Mongo Article model
(backend/models/Article.js): `read-later` (ephemeral) or `saved` (durable). -/
inductive ArticleType where
  | readLater
  | saved
deriving DecidableEq

/-- RetentionRecord view of an Article: the cleanup service filters only on
`type` and `savedAt` (epoch milliseconds). -/
structure Article where
  type : ArticleType
  savedAt : Int
deriving DecidableEq

/-- Milliseconds in one day; the calendar subtraction
`setDate(getDate() - d)` of cleanupService.js is modeled as subtracting
`d * dayMs`. -/
def dayMs : Int := 24 * 60 * 60 * 1000

/-- READ_LATER_RETENTION_DAYS of CleanupService. -/
def READ_LATER_RETENTION_DAYS : Int := 15

/-- SAVED_RETENTION_DAYS of CleanupService. -/
def SAVED_RETENTION_DAYS : Int := 365

/-- Mongo filter used by both deleteMany calls of `cleanupOldArticles`:
type equals `t` and `savedAt` lies strictly below `cutoff`. -/
def articleMatches (t : ArticleType) (cutoff : Int) (a : Article) : Bool :=
  decide (a.type = t) && decide (a.savedAt < cutoff)

/-- Article.deleteMany with the filter above, as one bulk set-based
operation: the surviving store is a single predicate filter over the whole
store, and `deletedCount` counts the matches. -/
def deleteMany (t : ArticleType) (cutoff : Int) (store : List Article) :
    List Article × Nat :=
  (store.filter (fun a => ! articleMatches t cutoff a),
   store.countP (articleMatches t cutoff))

/-- Result object of `cleanupOldArticles`; on the error path only `success`
and the error message are present (modeled as `error = true`, counts zero). -/
structure CleanupResult where
  success : Bool
  readLaterDeleted : Nat
  savedDeleted : Nat
  totalDeleted : Nat
  error : Bool
deriving DecidableEq

/-- cleanupOldArticles of backend/services/cleanupService.js (lines 38-86)
with failure injection at its two suspension points: `fail1` / `fail2` model
the first / second `Article.deleteMany` promise rejecting (a rejected
deleteMany deletes nothing); the catch block then returns success false with
the error message. -/
def cleanupOldArticlesF (fail1 fail2 : Bool) (store : List Article) (now : Int) :
    List Article × CleanupResult :=
  if fail1 then (store, ⟨false, 0, 0, 0, true⟩)
  else
    let r1 := deleteMany ArticleType.readLater
      (now - READ_LATER_RETENTION_DAYS * dayMs) store
    if fail2 then (r1.1, ⟨false, 0, 0, 0, true⟩)
    else
      let r2 := deleteMany ArticleType.saved
        (now - SAVED_RETENTION_DAYS * dayMs) r1.1
      (r2.1, ⟨true, r1.2, r2.2, r1.2 + r2.2, false⟩)

/-- cleanupOldArticles on the failure-free path: the runCleanup(now) of the
specification. -/
def cleanupOldArticles (store : List Article) (now : Int) :
    List Article × CleanupResult :=
  cleanupOldArticlesF false false store now

/-- Retention window of a category in milliseconds: 15 days for read-later
(ephemeral), 365 days for saved (durable). -/
def retentionWindow : ArticleType → Int
  | ArticleType.readLater => READ_LATER_RETENTION_DAYS * dayMs
  | ArticleType.saved => SAVED_RETENTION_DAYS * dayMs

/-- A record is expired at `now` when its `savedAt` lies strictly before
`now - retentionWindow(category)`. -/
def expired (now : Int) (a : Article) : Bool :=
  decide (a.savedAt < now - retentionWindow a.type)

/-- Concrete story used by witnesses. -/
def item1 : Item := ⟨101, "t", "a", 0, 1, "u", "story"⟩

/-- Concrete cache entry used by witnesses: one story, fetched at epoch
millisecond 1000. -/
def entry1 : CacheEntry := ⟨[item1], some 1000, "1.0"⟩

/-- Network oracle in which every source throws. -/
def envNone : SourceEnv := ⟨fun _ => none, none, none⟩

/-- Network oracle in which the background attempts and the first proxy
throw while the alternative proxy resolves with one story. -/
def envAlt : SourceEnv := ⟨fun _ => none, none, some [item1]⟩

/-- Network oracle in which the background attempts throw, the first proxy
resolves with an empty list (every per-item fetch failed) and the alternative
proxy would have resolved with one story. -/
def envEmptyProxy : SourceEnv := ⟨fun _ => none, some [], some [item1]⟩

/-- Concrete expired read-later record: saved 16 days before epoch zero. -/
def a16 : Article := ⟨ArticleType.readLater, -(16 * dayMs)⟩

/-- Helper: the store surviving a failure-free cleanup run is one filter of
the whole store by the complement of the expiration predicate. -/
theorem cleanup_store_eq (store : List Article) (now : Int) :
    (cleanupOldArticles store now).1 = store.filter (fun a => ! expired now a) := by
  have h : (cleanupOldArticles store now).1 =
      ((store.filter (fun a =>
          ! articleMatches ArticleType.readLater (now - READ_LATER_RETENTION_DAYS * dayMs) a)).filter
        (fun a =>
          ! articleMatches ArticleType.saved (now - SAVED_RETENTION_DAYS * dayMs) a)) := rfl
  rw [h, List.filter_filter]
  refine List.filter_congr ?_
  intro a _
  cases a with
  | mk t s => cases t <;> simp [articleMatches, expired, retentionWindow]

/-- Helper: the read-later deleted count is the number of expired read-later
records of the whole store. -/
theorem cleanup_readLaterDeleted_eq (store : List Article) (now : Int) :
    (cleanupOldArticles store now).2.readLaterDeleted =
      store.countP (fun a => decide (a.type = ArticleType.readLater) && expired now a) := by
  have h : (cleanupOldArticles store now).2.readLaterDeleted =
      store.countP
        (articleMatches ArticleType.readLater (now - READ_LATER_RETENTION_DAYS * dayMs)) := rfl
  rw [h]
  refine List.countP_congr ?_
  intro a _
  cases a with
  | mk t s => cases t <;> simp [articleMatches, expired, retentionWindow]

/-- Helper: the saved deleted count is the number of expired saved records of
the whole store. -/
theorem cleanup_savedDeleted_eq (store : List Article) (now : Int) :
    (cleanupOldArticles store now).2.savedDeleted =
      store.countP (fun a => decide (a.type = ArticleType.saved) && expired now a) := by
  have h : (cleanupOldArticles store now).2.savedDeleted =
      (store.filter (fun a =>
          ! articleMatches ArticleType.readLater (now - READ_LATER_RETENTION_DAYS * dayMs) a)).countP
        (articleMatches ArticleType.saved (now - SAVED_RETENTION_DAYS * dayMs)) := rfl
  rw [h, List.countP_filter]
  refine List.countP_congr ?_
  intro a _
  cases a with
  | mk t s => cases t <;> simp [articleMatches, expired, retentionWindow]

/-- Helper: totalDeleted is by construction the sum of the two per-category
counts. -/
theorem cleanup_total_eq (store : List Article) (now : Int) :
    (cleanupOldArticles store now).2.totalDeleted =
      (cleanupOldArticles store now).2.readLaterDeleted +
        (cleanupOldArticles store now).2.savedDeleted := rfl

/-- Helper: a read-later record aged 16 days is expired. -/
theorem expired_readLater_16 (now : Int) :
    expired now ⟨ArticleType.readLater, now - 16 * dayMs⟩ = true := by
  simp only [expired, retentionWindow, READ_LATER_RETENTION_DAYS, dayMs, decide_eq_true_eq]
  omega

/-- Helper: a saved record aged 16 days is not expired. -/
theorem expired_saved_16 (now : Int) :
    expired now ⟨ArticleType.saved, now - 16 * dayMs⟩ = false := by
  simp only [expired, retentionWindow, SAVED_RETENTION_DAYS, dayMs, decide_eq_false_iff_not]
  omega

/-- Claim C1: runCleanup(now) deletes exactly the records whose savedAt lies
strictly before now minus the category retention window (15 days for
read-later, 365 days for saved), each category as one bulk set-based filter;
it returns per-category counts whose sum is totalDeleted, and in particular a
read-later record aged 16 days is deleted while a saved record aged 16 days
is retained. -/
theorem runCleanup_deletes_exactly_expired (store : List Article) (now : Int) :
    (cleanupOldArticles store now).1 = store.filter (fun a => ! expired now a)
    ∧ (cleanupOldArticles store now).2.readLaterDeleted =
        store.countP (fun a => decide (a.type = ArticleType.readLater) && expired now a)
    ∧ (cleanupOldArticles store now).2.savedDeleted =
        store.countP (fun a => decide (a.type = ArticleType.saved) && expired now a)
    ∧ (cleanupOldArticles store now).2.totalDeleted =
        (cleanupOldArticles store now).2.readLaterDeleted +
          (cleanupOldArticles store now).2.savedDeleted
    ∧ (cleanupOldArticles store now).2.success = true
    ∧ cleanupOldArticles
        [⟨ArticleType.readLater, now - 16 * dayMs⟩, ⟨ArticleType.saved, now - 16 * dayMs⟩] now
        = ([⟨ArticleType.saved, now - 16 * dayMs⟩], ⟨true, 1, 0, 1, false⟩) := by
  refine ⟨cleanup_store_eq store now, cleanup_readLaterDeleted_eq store now,
    cleanup_savedDeleted_eq store now, rfl, rfl, ?_⟩
  have m1 : articleMatches ArticleType.readLater (now - READ_LATER_RETENTION_DAYS * dayMs)
      ⟨ArticleType.readLater, now - 16 * dayMs⟩ = true := by
    simp [articleMatches, READ_LATER_RETENTION_DAYS, dayMs]
  have m2 : articleMatches ArticleType.readLater (now - READ_LATER_RETENTION_DAYS * dayMs)
      ⟨ArticleType.saved, now - 16 * dayMs⟩ = false := by
    simp [articleMatches]
  have m3 : articleMatches ArticleType.saved (now - SAVED_RETENTION_DAYS * dayMs)
      ⟨ArticleType.saved, now - 16 * dayMs⟩ = false := by
    simp only [articleMatches, SAVED_RETENTION_DAYS, dayMs, Bool.and_eq_false_iff,
      decide_eq_false_iff_not]
    right
    omega
  show (cleanupOldArticlesF false false _ now) = _
  simp [cleanupOldArticlesF, deleteMany, List.filter_cons, List.filter_nil,
    List.countP_cons, List.countP_nil, m1, m2, m3]

/-- Claim C7: running runCleanup twice in immediate succession with the same
now and no records created in between yields totalDeleted = 0 on the second
call. -/
theorem runCleanup_idempotent (store : List Article) (now : Int) :
    (cleanupOldArticles (cleanupOldArticles store now).1 now).2.totalDeleted = 0 := by
  rw [cleanup_total_eq, cleanup_readLaterDeleted_eq, cleanup_savedDeleted_eq,
    cleanup_store_eq]
  have hz : ∀ t : ArticleType,
      (store.filter (fun a => ! expired now a)).countP
        (fun a => decide (a.type = t) && expired now a) = 0 := by
    intro t
    refine List.countP_eq_zero.mpr ?_
    intro a ha
    have h2 := (List.mem_filter.mp ha).2
    simp only [Bool.not_eq_true'] at h2
    simp [h2]
  rw [hz, hz]

/-- Counterexample to claim C8 as stated: when the first bulk delete succeeds
and the second rejects, the run reports success false, yet the expired
read-later record is already gone -- the store is not unchanged on this
failed run. -/
theorem cleanup_failure_partial_counterexample :
    (cleanupOldArticlesF false true [a16] 0).2.success = false
    ∧ (cleanupOldArticlesF false true [a16] 0).2.error = true
    ∧ (cleanupOldArticlesF false true [a16] 0).1 ≠ [a16] := by decide

/-- Claim C8 (amended): a failed run returns success false with an error
message; the store is unchanged when the first bulk delete fails, and when
the second fails exactly the first category bulk delete has been applied (no
partial deletion inside a category's bulk delete). -/
theorem cleanup_failure_behavior (fail1 fail2 : Bool) (store : List Article) (now : Int)
    (h : fail1 = true ∨ fail2 = true) :
    (cleanupOldArticlesF fail1 fail2 store now).2.success = false
    ∧ (cleanupOldArticlesF fail1 fail2 store now).2.error = true
    ∧ (fail1 = true → (cleanupOldArticlesF fail1 fail2 store now).1 = store)
    ∧ (fail1 = false → (cleanupOldArticlesF fail1 fail2 store now).1 =
        (deleteMany ArticleType.readLater (now - READ_LATER_RETENTION_DAYS * dayMs) store).1) := by
  cases fail1 with
  | false =>
    cases fail2 with
    | false => rcases h with h | h <;> simp at h
    | true => simp [cleanupOldArticlesF]
  | true => simp [cleanupOldArticlesF]

/-- Witness for the amended claim C8 at a concrete failing run. -/
theorem cleanup_failure_witness :
    (cleanupOldArticlesF true false [a16] 0).2.success = false
    ∧ (cleanupOldArticlesF true false [a16] 0).2.error = true
    ∧ (true = true → (cleanupOldArticlesF true false [a16] 0).1 = [a16])
    ∧ (true = false → (cleanupOldArticlesF true false [a16] 0).1 =
        (deleteMany ArticleType.readLater (0 - READ_LATER_RETENTION_DAYS * dayMs) [a16]).1) :=
  cleanup_failure_behavior true false [a16] 0 (Or.inl rfl)

/-- Claim C2: for every recorded fetch timestamp t0 (a Date.now value, hence
nonzero -- the zero/falsy value encodes the absence of a recorded fetch time)
and every now, isCacheFresh is exactly now - t0 < CACHE_DURATION, with
CACHE_DURATION the fixed 30 minutes. -/
theorem isCacheFresh_spec (t0 now : Int) (h : t0 ≠ 0) :
    isCacheFresh (some t0) now = decide (now - t0 < CACHE_DURATION)
    ∧ CACHE_DURATION = 30 * 60 * 1000 :=
  ⟨by simp [isCacheFresh, h], rfl⟩

/-- Witness for claim C2 at a concrete timestamp. -/
theorem isCacheFresh_spec_witness :
    ((1000 : Int) ≠ 0)
    ∧ (isCacheFresh (some 1000) 2000 = decide ((2000 : Int) - 1000 < CACHE_DURATION)
       ∧ CACHE_DURATION = 30 * 60 * 1000) :=
  ⟨by decide, isCacheFresh_spec 1000 2000 (by decide)⟩

/-- Claim C3: when the cache holds a fresh entry, both retrieval entry points
serve that entry's stories marked as a cache hit, leave the cache untouched
and perform no network attempt -- the result does not depend on the network
oracle at all, which is universally quantified and absent from the right-hand
sides. -/
theorem freshCache_served_without_network (env : SourceEnv) (api : Option (List Item))
    (c : CacheEntry) (now : Int) (h : isCacheFresh c.timestamp now = true) :
    handleFetchStories api (some c) now = (⟨true, c.stories, true, false, false⟩, some c)
    ∧ loadStories env (some c) now =
        (⟨c.stories.take 20, Origin.fresh, false, false⟩, some c) := by
  constructor
  · simp [handleFetchStories, h]
  · simp [loadStories, h]

/-- Witness for claim C3 on a concrete fresh entry. -/
theorem freshCache_served_without_network_witness :
    handleFetchStories none (some entry1) 2000
      = (⟨true, entry1.stories, true, false, false⟩, some entry1)
    ∧ loadStories envNone (some entry1) 2000
      = (⟨entry1.stories.take 20, Origin.fresh, false, false⟩, some entry1) :=
  freshCache_served_without_network envNone none entry1 2000 (by decide)

/-- Counterexample to claim C4 as stated: the cache is absent, the
alternative proxy source succeeds with one item, yet because the first proxy
resolved with an empty list (a non-throwing empty success) the chain never
reaches the alternative proxy -- loadStories serves the sample fallback and
writes nothing to the cache. -/
theorem pipeline_empty_source_counterexample :
    envEmptyProxy.altProxy = some [item1]
    ∧ [item1] ≠ ([] : List Item)
    ∧ (loadStories envEmptyProxy none 0).1.origin = Origin.fallback
    ∧ Origin.fallback ≠ Origin.fresh
    ∧ (loadStories envEmptyProxy none 0).2 = none :=
  ⟨rfl, by decide, rfl, by decide, rfl⟩

/-- Claim C4 (amended): with the cache absent or stale, whenever the source
chain -- primary with retries, each fallback tried only after the previous
one threw -- yields at least one item, loadStories stores the first 20 of
those items in the cache via saveStoriesToCache and serves them with origin
fresh; in particular this holds when the primary and the first fallback throw
and the second fallback succeeds with items.  (A fallback that resolves with
zero items ends the chain without reaching later fallbacks.) -/
theorem fetch_success_caches_and_serves (env : SourceEnv) (cache : Option CacheEntry)
    (l : List Item) (now : Int)
    (hnf : ∀ c, cache = some c → isCacheFresh c.timestamp now = false) :
    (sourceChain env = some l → l ≠ [] →
      loadStories env cache now =
        (⟨l.take 20, Origin.fresh, false, false⟩, some ⟨l.take 20, some now, CACHE_VERSION⟩))
    ∧ (fetchStoriesWithRetry env = none → env.proxy = none → env.altProxy = some l →
        l ≠ [] →
      loadStories env cache now =
        (⟨l.take 20, Origin.fresh, false, false⟩, some ⟨l.take 20, some now, CACHE_VERSION⟩)) := by
  have main : sourceChain env = some l → l ≠ [] →
      loadStories env cache now =
        (⟨l.take 20, Origin.fresh, false, false⟩, some ⟨l.take 20, some now, CACHE_VERSION⟩) := by
    intro hchain hne
    have hlen : 0 < l.length := List.length_pos.mpr hne
    have hfetch : loadStoriesFetch env cache now =
        (⟨l.take 20, Origin.fresh, false, false⟩, some ⟨l.take 20, some now, CACHE_VERSION⟩) := by
      simp [loadStoriesFetch, hchain, hlen]
    cases cache with
    | none => simpa [loadStories] using hfetch
    | some c => simp [loadStories, hnf c rfl, hfetch]
  exact ⟨main, fun hr hp ha hne => main (by simp [sourceChain, hr, hp, ha]) hne⟩

/-- Witness for the amended claim C4: primary and first fallback throw, the
second fallback succeeds with one story, which is served and cached. -/
theorem fetch_success_witness :
    loadStories envAlt none 0 =
      (⟨[item1], Origin.fresh, false, false⟩, some ⟨[item1], some 0, CACHE_VERSION⟩) :=
  (fetch_success_caches_and_serves envAlt none [item1] 0
    (fun c hc => by cases hc)).2 rfl rfl rfl (by decide)

/-- Claim C5: when every source fails and the cache holds an entry with at
least one story -- of any age beyond freshness, e.g. 45 minutes with the
30-minute TTL -- both retrieval entry points serve that entry's stories
marked stale together with the outdated-data signal, and no error is raised
(the result is a normal degraded response). -/
theorem allSourcesFail_staleCache (env : SourceEnv) (api : Option (List Item))
    (c : CacheEntry) (now : Int)
    (hsrc : sourceChain env = none ∨ sourceChain env = some [])
    (hapi : api = none ∨ api = some [])
    (hne : c.stories ≠ [])
    (hlen : c.stories.length ≤ 20)
    (hstale : isCacheFresh c.timestamp now = false) :
    loadStories env (some c) now = (⟨c.stories, Origin.stale, true, false⟩, some c)
    ∧ handleFetchStories api (some c) now = (⟨true, c.stories, true, true, false⟩, some c) := by
  have hpos : 0 < c.stories.length := List.length_pos.mpr hne
  constructor
  · have hfetch : loadStoriesFetch env (some c) now =
        (⟨c.stories.take 20, Origin.stale, true, false⟩, some c) := by
      rcases hsrc with h | h <;> simp [loadStoriesFetch, h, loadStoriesCatch, hpos]
    rw [List.take_of_length_le hlen] at hfetch
    simp [loadStories, hstale, hfetch]
  · have hfetch : handleFetchStoriesFetch api (some c) now =
        (⟨true, c.stories, true, true, false⟩, some c) := by
      rcases hapi with h | h <;> simp [handleFetchStoriesFetch, h, handleFetchStoriesCatch, hpos]
    simp [handleFetchStories, hstale, hfetch]

/-- Witness for claim C5: all sources throw and the cached entry is 45
minutes old (TTL is 30 minutes). -/
theorem allSourcesFail_staleCache_witness :
    loadStories envNone (some entry1) 2701000
      = (⟨entry1.stories, Origin.stale, true, false⟩, some entry1)
    ∧ handleFetchStories none (some entry1) 2701000
      = (⟨true, entry1.stories, true, true, false⟩, some entry1) :=
  allSourcesFail_staleCache envNone none entry1 2701000 (Or.inl rfl) (Or.inl rfl)
    (by decide) (by decide) (by decide)

/-- Claim C6: when every source fails and no cached entry exists, loadStories
serves the fixed three-story sample payload with origin fallback and the
offline signal; being a total function it raises no error to the caller. -/
theorem allSourcesFail_noCache_sample (env : SourceEnv) (now : Int)
    (hsrc : sourceChain env = none ∨ sourceChain env = some []) :
    loadStories env none now = (⟨sampleStories now, Origin.fallback, false, true⟩, none)
    ∧ (sampleStories now).length = 3 := by
  constructor
  · rcases hsrc with h | h <;> simp [loadStories, loadStoriesFetch, h, loadStoriesCatch]
  · rfl

/-- Witness for claim C6 with every source throwing. -/
theorem allSourcesFail_noCache_sample_witness :
    loadStories envNone none 0 = (⟨sampleStories 0, Origin.fallback, false, true⟩, none)
    ∧ (sampleStories 0).length = 3 :=
  allSourcesFail_noCache_sample envNone 0 (Or.inl rfl)

/-- Counterexample to claim C9 as stated: two FORCE_REFRESH triggers arriving
back to back start two refresh cycles, not exactly one -- background.js keeps
no in-flight guard. -/
theorem forceRefresh_two_triggers_two_cycles :
    (processForceRefreshes 2 ⟨0⟩).startedCycles = 2
    ∧ (processForceRefreshes 2 ⟨0⟩).startedCycles ≠ 1 := by decide

/-- Claim C9 (amended): every FORCE_REFRESH trigger unconditionally starts
its own refresh cycle -- n triggers start n network retrieval cycles; there
is no single-flight guard joining or rejecting concurrent triggers. -/
theorem forceRefresh_no_single_flight (n : Nat) (s : BgScriptState) :
    (processForceRefreshes n s).startedCycles = s.startedCycles + n := by
  induction n generalizing s with
  | zero => rfl
  | succ k ih =>
    show (processForceRefreshes k (onForceRefresh s).1).startedCycles = s.startedCycles + (k + 1)
    rw [ih]
    show s.startedCycles + 1 + k = s.startedCycles + (k + 1)
    omega

/-- Claim C10: an entry whose stored timestamp is absent or zero is never
fresh, is always classified as too old, and autoCleanup clears such an entry
whatever the current time. -/
theorem missing_timestamp_never_fresh (now : Int) (stories : List Item) (ver : String) :
    isCacheFresh none now = false
    ∧ isCacheFresh (some 0) now = false
    ∧ isCacheTooOld none now = true
    ∧ isCacheTooOld (some 0) now = true
    ∧ autoCleanup (some ⟨stories, none, ver⟩) now = (none, true)
    ∧ autoCleanup (some ⟨stories, some 0, ver⟩) now = (none, true) := by
  refine ⟨rfl, by simp [isCacheFresh], rfl, by simp [isCacheTooOld],
    by simp [autoCleanup, isCacheTooOld],
    by simp [autoCleanup, isCacheTooOld]⟩
